import Mathlib

/-!
# Verification of the clinical-data-gateway-api controller layer

Shallow embedding of the gateway API's Python source
(`gateway_api/common/common.py`, `gateway_api/controller.py`,
`gateway_api/pds_search.py`) and proofs about it.

Conventions of the embedding:

* Python `str` values are Lean `String`s.  The embedding models the ASCII
  fragment of Python's string semantics: `str.isdigit` is true of the
  decimal digits `'0'..'9'`, the regex class `[\s-]` matches the ASCII
  whitespace characters and the hyphen, and `str.strip()` trims ASCII
  whitespace.
* Python `int` is Lean `Int`; `str(int)` is modelled by an explicit
  decimal-representation function `pyIntRepr`.
* Code that can raise is embedded with `Except`; the distinct Python
  exception classes that can cross the layer boundaries are the
  constructors of `PyFault`.
-/

namespace GatewayApi

/-! ## Python character/string primitives -/

/-- Numeric value of a decimal digit character (`int(ch)` on a digit). -/
def dval (c : Char) : Nat := c.toNat - 48

/-- The decimal digit character for a value `d < 10`. -/
def digitChar (d : Nat) : Char := Char.ofNat (48 + d)

/-- ASCII whitespace, as matched by Python's `str.strip()` and regex `\s`. -/
def isPySpace (c : Char) : Bool :=
  c = ' ' || c = '\t' || c = '\n' || c = '\r' || c = '\x0b' || c = '\x0c'

/-- Characters removed by `re.sub(r"[\s-]", "", ...)`: whitespace or hyphen. -/
def isSepChar (c : Char) : Bool := isPySpace c || c = '-'

/-- Python `str.isdigit()` (ASCII fragment): nonempty and all decimal digits. -/
def pyStrIsDigit (l : List Char) : Bool := !l.isEmpty && l.all Char.isDigit

/-- Python `str.strip()`: remove leading and trailing whitespace. -/
def pyStrip (s : String) : String :=
  (((s.toList.dropWhile isPySpace).reverse.dropWhile isPySpace).reverse).asString

/-- Python `str.replace(" ", "")`: remove every space character. -/
def removeSpaces (l : List Char) : List Char := l.filter (fun c => c ≠ ' ')

/-! ## Decimal representation of integers (Python `str(int)` / `int(str)`) -/

/-- Little-endian decimal digits of `n`, with explicit fuel (structural
recursion; any fuel `≥ n` gives the digits of `n`). -/
def natDigitsRevFuel : Nat → Nat → List Nat
  | _, 0 => []
  | 0, _ + 1 => []
  | fuel + 1, n + 1 => (n + 1) % 10 :: natDigitsRevFuel fuel ((n + 1) / 10)

/-- Little-endian decimal digits of `n` (empty for `0`). -/
def natDigitsRev (n : Nat) : List Nat := natDigitsRevFuel n n

/-- Value of a little-endian digit list. -/
def valRev : List Nat → Nat
  | [] => 0
  | d :: ds => d + 10 * valRev ds

/-- Python `str(n)` for a natural number. -/
def pyNatRepr (n : Nat) : String :=
  if n = 0 then "0" else (((natDigitsRev n).map digitChar).reverse).asString

/-- Python `str(i)` for an integer. -/
def pyIntRepr (i : Int) : String :=
  if i < 0 then "-" ++ pyNatRepr i.natAbs else pyNatRepr i.natAbs

/-- Python `int(s)` for a string of decimal digits. -/
def pyStrToNat (l : List Char) : Nat := valRev ((l.reverse).map dval)

/-! ## `validate_nhs_number` (common/common.py lines 31-64) -/

/-- A Python value of type `str | int`. -/
inductive PyStrInt where
  | s (v : String)
  | i (v : Int)
deriving DecidableEq

/-- Python `str(value)` on a `str | int` value. -/
def pyStr : PyStrInt → String
  | .s v => v
  | .i v => pyIntRepr v

/-- `re.sub(r"[\s-]", "", str_value)`. -/
def stripSeparators (s : String) : String :=
  (s.toList.filter (fun c => !isSepChar c)).asString

/-- `list(range(10, 1, -1))`: the check-digit weights. -/
def nhsWeights : List Nat := [10, 9, 8, 7, 6, 5, 4, 3, 2]

/-- Body of `validate_nhs_number` applied to the separator-stripped digit
string (source lines 45-64). -/
def validateDigits (l : List Char) : Bool :=
  if l.length ≠ 10 then false
  else if !pyStrIsDigit l then false
  else
    let first_nine := (l.take 9).map dval
    let provided_check_digit := dval (l.getD 9 '0')
    let total := ((first_nine.zip nhsWeights).map (fun p => p.1 * p.2)).sum
    let remainder := total % 11
    let check0 := 11 - remainder
    let check := if check0 = 11 then 0 else check0
    if check = 10 then false
    else check == provided_check_digit

/-- `validate_nhs_number(value)` from `common/common.py`. -/
def validate_nhs_number (value : PyStrInt) : Bool :=
  validateDigits ((stripSeparators (pyStr value)).toList)

/-! ## The specification's description of NHS-number validity -/

/-- The claim's description of validity of a separator-stripped NHS-number
string: exactly ten decimal digits; `total` is the sum over the first nine
digits of `digit[i] * weight[i]` for weights 10 down to 2;
`remainder = total % 11`; `check = 11 - remainder` with check 11 mapped
to 0; valid iff `check != 10` and the tenth digit equals `check`. -/
def nhsSpecValid (ds : String) : Bool :=
  let l := ds.toList
  let digs := l.map dval
  let total := ((List.range 9).map (fun i => digs.getD i 0 * (10 - i))).sum
  let remainder := total % 11
  let check := if 11 - remainder = 11 then 0 else 11 - remainder
  decide (l.length = 10) && l.all Char.isDigit && decide (check ≠ 10) &&
    (check == digs.getD 9 0)

/-! ## Dates (`datetime.date` with ISO-format parsing, pds_search.py) -/

/-- A calendar date, as `datetime.date`. -/
structure PyDate where
  year : Nat
  month : Nat
  day : Nat
deriving DecidableEq, Repr

/-- Python `date` ordering: lexicographic on (year, month, day). -/
def PyDate.le (a b : PyDate) : Bool :=
  decide (a.year < b.year) ||
    (decide (a.year = b.year) && (decide (a.month < b.month) ||
      (decide (a.month = b.month) && decide (a.day ≤ b.day))))

/-- Gregorian leap-year rule used by `datetime.date`. -/
def isLeapYear (y : Nat) : Bool :=
  decide (y % 4 = 0) && (decide (y % 100 ≠ 0) || decide (y % 400 = 0))

/-- Days in a month, as validated by the `datetime.date` constructor. -/
def daysInMonth (y m : Nat) : Nat :=
  if m = 2 then (if isLeapYear y then 29 else 28)
  else if m = 4 ∨ m = 6 ∨ m = 9 ∨ m = 11 then 30
  else 31

/-- `date.fromisoformat` on the canonical `YYYY-MM-DD` layout: `none`
models a raised `ValueError`. -/
def parseIsoDate (s : String) : Option PyDate :=
  match s.toList with
  | [y1, y2, y3, y4, '-', m1, m2, '-', d1, d2] =>
      if y1.isDigit && y2.isDigit && y3.isDigit && y4.isDigit &&
          m1.isDigit && m2.isDigit && d1.isDigit && d2.isDigit then
        let y := ((dval y1 * 10 + dval y2) * 10 + dval y3) * 10 + dval y4
        let m := dval m1 * 10 + dval m2
        let d := dval d1 * 10 + dval d2
        if 1 ≤ y ∧ 1 ≤ m ∧ m ≤ 12 ∧ 1 ≤ d ∧ d ≤ daysInMonth y m then
          some ⟨y, m, d⟩
        else none
      else none
  | _ => none

/-! ## FHIR record fragments used by the temporal selectors -/

/-- The Python exception classes that can cross the pds_search layer. -/
inductive PyFault where
  | keyError (key : String)
  | valueError (msg : String)
  | runtimeError (msg : String)
  | externalServiceError (msg : String)
deriving DecidableEq, Repr

/-- A FHIR `period` dict; a missing key models an absent dict entry. -/
structure PyPeriod where
  startStr : Option String := none
  endStr : Option String := none
deriving DecidableEq, Repr

/-- A `Patient.name[]` record (the fields the gateway reads). -/
structure NameRecord where
  period? : Option PyPeriod := none
  given : List String := []
  family : Option String := none
deriving DecidableEq, Repr

/-- A `generalPractitioner[].identifier` dict. -/
structure GpIdentifier where
  period? : Option PyPeriod := none
  value : Option String := none
deriving DecidableEq, Repr

/-- A `Patient.generalPractitioner[]` record. -/
structure GpRecord where
  identifier? : Option GpIdentifier := none
deriving DecidableEq, Repr

/-- Reading `periods["start"]`, `periods["end"]` and parsing both dates, in
the statement order of the source (`KeyError` for a missing key, then
`ValueError` for an unparseable date). -/
def periodDates (p : PyPeriod) : Except PyFault (PyDate × PyDate) :=
  match p.startStr with
  | none => .error (.keyError "start")
  | some start_str =>
    match p.endStr with
    | none => .error (.keyError "end")
    | some end_str =>
      match parseIsoDate start_str with
      | none => .error (.valueError "Invalid isoformat string")
      | some startDate =>
        match parseIsoDate end_str with
        | none => .error (.valueError "Invalid isoformat string")
        | some endDate => .ok (startDate, endDate)

/-- `record["period"]` (raising `KeyError` when absent) followed by
`periodDates`, for a name record. -/
def nameRecordDates (r : NameRecord) : Except PyFault (PyDate × PyDate) :=
  match r.period? with
  | none => .error (.keyError "period")
  | some p => periodDates p

/-- `record["identifier"]["period"]` (each `[]` raising `KeyError` when the
key is absent) followed by `periodDates`, for a GP record. -/
def gpRecordDates (r : GpRecord) : Except PyFault (PyDate × PyDate) :=
  match r.identifier? with
  | none => .error (.keyError "identifier")
  | some ident =>
    match ident.period? with
    | none => .error (.keyError "period")
    | some p => periodDates p

/-- `find_current_name_record(records, today)` from pds_search.py. -/
def findCurrentNameRecord (records : List NameRecord) (today : PyDate) :
    Except PyFault (Option NameRecord) :=
  match records with
  | [] => .ok none
  | record :: rest =>
    match nameRecordDates record with
    | .error e => .error e
    | .ok (startDate, endDate) =>
      if PyDate.le startDate today && PyDate.le today endDate then
        .ok (some record)
      else findCurrentNameRecord rest today

/-- `find_current_gp(records, today)` from pds_search.py. -/
def findCurrentGp (records : List GpRecord) (today : PyDate) :
    Except PyFault (Option GpRecord) :=
  match records with
  | [] => .ok none
  | record :: rest =>
    match gpRecordDates record with
    | .error e => .error e
    | .ok (startDate, endDate) =>
      if PyDate.le startDate today && PyDate.le today endDate then
        .ok (some record)
      else findCurrentGp rest today

/-- A name record is well-formed: period present with parseable dates. -/
def nameWf (r : NameRecord) : Bool :=
  match nameRecordDates r with
  | .ok _ => true
  | .error _ => false

/-- A name record's period contains `today` inclusively. -/
def nameCurrent (r : NameRecord) (today : PyDate) : Bool :=
  match nameRecordDates r with
  | .ok (s, e) => PyDate.le s today && PyDate.le today e
  | .error _ => false

/-- A GP record is well-formed: identifier and period present with
parseable dates. -/
def gpWf (r : GpRecord) : Bool :=
  match gpRecordDates r with
  | .ok _ => true
  | .error _ => false

/-- A GP record's identifier period contains `today` inclusively. -/
def gpCurrent (r : GpRecord) (today : PyDate) : Bool :=
  match gpRecordDates r with
  | .ok (s, e) => PyDate.le s today && PyDate.le today e
  | .error _ => false

/-- A name record missing its period, or its period start/end entry. -/
def nameBroken (r : NameRecord) : Bool :=
  match r.period? with
  | none => true
  | some p => p.startStr.isNone || p.endStr.isNone

/-- A GP record missing its identifier, period, or period start/end entry. -/
def gpBroken (r : GpRecord) : Bool :=
  match r.identifier? with
  | none => true
  | some ident =>
    match ident.period? with
    | none => true
    | some p => p.startStr.isNone || p.endStr.isNone

/-! ## Controller data model (controller.py, common/common.py) -/

/-- `FlaskResponse` from common/common.py. -/
structure FlaskResponse where
  status_code : Nat
  data : Option String := none
  headers : Option (List (String × String)) := none
deriving DecidableEq, Repr

/-- `RequestError` from controller.py (`str(err)` is its message). -/
structure RequestError where
  status_code : Nat
  message : String
deriving DecidableEq, Repr

/-- `SearchResults` from pds_search.py. -/
structure SearchResults where
  given_names : String
  family_name : String
  nhs_number : String
  gp_ods_code : Option String
deriving DecidableEq, Repr

/-- `SdsSearchResults` from controller.py.  The dataclass types `asid` as
`str`, but `_get_sds_details` guards both fields with `or ""`, so absent
values are representable; `Option` models them. -/
structure SdsSearchResults where
  asid : Option String
  endpoint : Option String
deriving DecidableEq, Repr

/-- The subset of `requests.Response` read by the controller. -/
structure HttpResponse where
  status_code : Nat
  text : String
  headers : List (String × String)
deriving DecidableEq, Repr

/-- A JSON value that can appear in the `"nhs-number"` field.  (Other JSON
shapes always fail `_coerce_nhs_number_to_int` with `ValueError`; the
claims only exercise string, integer and null values.) -/
inductive BodyVal where
  | vstr (s : String)
  | vint (n : Int)
  | vnull
deriving DecidableEq, Repr

/-- The result of `json.loads` on the request body: parse failure, a
non-object value, or an object's field list.  JSON text parsing itself is
the runtime's, so the embedding starts from the parsed shape. -/
inductive ReqBody where
  | badJson
  | nonObject
  | object (fields : List (String × BodyVal))
deriving DecidableEq, Repr

/-- Python `dict.get` on an object's fields. -/
def lookupField : List (String × BodyVal) → String → Option BodyVal
  | [], _ => none
  | kv :: rest, k => if kv.1 == k then some kv.2 else lookupField rest k

/-- Python `dict.get` on the request headers. -/
def headersGet : List (String × String) → String → Option String
  | [], _ => none
  | kv :: rest, k => if kv.1 == k then some kv.2 else headersGet rest k

/-- Python `str(...)` of a JSON field value (used in the coercion-failure
message's f-string). -/
def bodyValStr : BodyVal → String
  | .vstr s => s
  | .vint n => pyIntRepr n
  | .vnull => "None"

/-- The common tail of `_coerce_nhs_number_to_int` (controller.py lines
443-450): length check on `str(n)` then the modulus-11 validation. -/
def coerceCheck (n : Int) : Except String Int :=
  if (pyIntRepr n).length ≠ 10 then .error "NHS number must be 10 digits"
  else if validate_nhs_number (.i n) = false then .error "NHS number is invalid"
  else .ok n

/-- `_coerce_nhs_number_to_int(value)` from controller.py (identical to
`coerce_nhs_number_to_int` in common/common.py).  A string is stripped,
space-stripped and digit-checked; a non-string falls into the
`AttributeError` branch and is stringified for the length check (for null,
`str(None) = "None"`, which always fails the length check). -/
def coerceNhsNumberToInt (value : BodyVal) : Except String Int :=
  match value with
  | .vstr s =>
      let stripped := removeSpaces (pyStrip s).toList
      if pyStrIsDigit stripped then coerceCheck (Int.ofNat (pyStrToNat stripped))
      else .error "NHS number must be numeric"
  | .vint n => coerceCheck n
  | .vnull => .error "NHS number must be 10 digits"

/-- `Controller._get_details_from_body` (controller.py lines 178-222). -/
def getDetailsFromBody (request_body : ReqBody) : Except RequestError Int :=
  match request_body with
  | .badJson =>
      .error ⟨400, "Request body must be valid JSON with an \"nhs-number\" field"⟩
  | .nonObject =>
      .error ⟨400, "Request body must be a JSON object with an \"nhs-number\" field"⟩
  | .object fields =>
    match lookupField fields "nhs-number" with
    | none =>
        .error ⟨400, "Missing required field \"nhs-number\" in JSON request body"⟩
    | some .vnull =>
        .error ⟨400, "Missing required field \"nhs-number\" in JSON request body"⟩
    | some v =>
      match coerceNhsNumberToInt v with
      | .error _ =>
          .error ⟨400, "Could not coerce NHS number \"" ++ bodyValStr v
            ++ "\" to an integer"⟩
      | .ok n => .ok n

/-- An error leaving `_get_pds_details`: either a handled `RequestError` or
a fault raised by the PDS client (which the controller does not catch). -/
inductive PdsStageErr where
  | req (e : RequestError)
  | fault (f : PyFault)
deriving DecidableEq, Repr

/-- The downstream services, abstracted as the controller sees them: the
PDS client (which may raise, hence `Except`), the SDS client, and the GP
Connect call with the resolved endpoint, both ASIDs, the trace id and the
stringified NHS number.  The auth token and base URLs of the Python
constructors are absorbed into the adapter functions. -/
structure Adapters where
  pds : Int → Except PyFault (Option SearchResults)
  sds : String → Option SdsSearchResults
  gp : String → String → String → String → String → Option HttpResponse

/-- `Controller._get_pds_details` (controller.py lines 224-266). -/
def getPdsDetails (pds : Int → Except PyFault (Option SearchResults))
    (nhs_number : Int) : Except PdsStageErr String :=
  match pds nhs_number with
  | .error f => .error (.fault f)
  | .ok none =>
      .error (.req ⟨404, "No PDS patient found for NHS number "
        ++ pyIntRepr nhs_number⟩)
  | .ok (some pds_result) =>
    match pds_result.gp_ods_code with
    | some code =>
        if code = "" then
          .error (.req ⟨404, "PDS patient " ++ pyIntRepr nhs_number
            ++ " did not contain a current provider ODS code"⟩)
        else .ok code
    | none =>
        .error (.req ⟨404, "PDS patient " ++ pyIntRepr nhs_number
          ++ " did not contain a current provider ODS code"⟩)

/-- `Controller._get_sds_details` (controller.py lines 268-336). -/
def getSdsDetails (sds : String → Option SdsSearchResults)
    (consumer_ods provider_ods : String) :
    Except RequestError (String × String × String) :=
  match sds provider_ods with
  | none =>
      .error ⟨404, "No SDS org found for provider ODS code " ++ provider_ods⟩
  | some provider_details =>
    let provider_asid := pyStrip (provider_details.asid.getD "")
    if provider_asid = "" then
      .error ⟨404, "SDS result for provider ODS code " ++ provider_ods
        ++ " did not contain a current ASID"⟩
    else
      let provider_endpoint := pyStrip (provider_details.endpoint.getD "")
      if provider_endpoint = "" then
        .error ⟨404, "SDS result for provider ODS code " ++ provider_ods
          ++ " did not contain a current endpoint"⟩
      else
        match sds consumer_ods with
        | none =>
            .error ⟨404, "No SDS org found for consumer ODS code " ++ consumer_ods⟩
        | some consumer_details =>
          let consumer_asid := pyStrip (consumer_details.asid.getD "")
          if consumer_asid = "" then
            .error ⟨404, "SDS result for consumer ODS code " ++ consumer_ods
              ++ " did not contain a current ASID"⟩
          else .ok (consumer_asid, provider_asid, provider_endpoint)

/-- `Controller.call_gp_connect` (controller.py lines 338-418).  A `.ok`
value is the returned `FlaskResponse`; a `.error` value is an uncaught
exception escaping to the caller (only `RequestError` is caught). -/
def callGpConnect (ad : Adapters) (request_body : ReqBody)
    (headers : List (String × String)) : Except PyFault FlaskResponse :=
  match getDetailsFromBody request_body with
  | .error err => .ok ⟨err.status_code, some err.message, none⟩
  | .ok nhs_number =>
    let consumer_ods := pyStrip ((headersGet headers "Ods-from").getD "")
    if consumer_ods = "" then
      .ok ⟨400, some "Missing required header \"Ods-from\"", none⟩
    else
      match headersGet headers "X-Request-ID" with
      | none => .ok ⟨400, some "Missing required header: X-Request-ID", none⟩
      | some trace_id =>
        match getPdsDetails ad.pds nhs_number with
        | .error (.req err) => .ok ⟨err.status_code, some err.message, none⟩
        | .error (.fault f) => .error f
        | .ok provider_ods =>
          match getSdsDetails ad.sds consumer_ods provider_ods with
          | .error err => .ok ⟨err.status_code, some err.message, none⟩
          | .ok (consumer_asid, provider_asid, provider_endpoint) =>
            match ad.gp provider_endpoint provider_asid consumer_asid trace_id
                (pyIntRepr nhs_number) with
            | none => .ok ⟨502, some "GP Connect service error", none⟩
            | some response =>
                .ok ⟨response.status_code, some response.text, some response.headers⟩

/-! ## Concrete fixtures used in examples and witnesses -/

/-- A name record current throughout 2020. -/
def nameRec2020 : NameRecord := { period? := some ⟨some "2020-01-01", some "2020-12-31"⟩ }

/-- A name record current throughout 2021. -/
def nameRec2021 : NameRecord := { period? := some ⟨some "2021-01-01", some "2021-12-31"⟩ }

/-- A GP record current throughout 2020. -/
def gpRec2020 : GpRecord :=
  { identifier? := some ⟨some ⟨some "2020-01-01", some "2020-12-31"⟩, some "A20047"⟩ }

/-- Adapters in which every downstream service succeeds. -/
def happyAdapters : Adapters where
  pds := fun _ => .ok (some ⟨"JOHN", "DOE", "9434765919", some "A20047"⟩)
  sds := fun ods => some ⟨some ("asid_" ++ ods), some "https://example-provider.org/endpoint"⟩
  gp := fun _ _ _ _ _ => some ⟨200, "record", [("Content-Type", "application/fhir+json")]⟩

/-- Adapters in which the PDS HTTP call fails, so the PDS client raises
`ExternalServiceError` (pds_search.py lines 199-203). -/
def faultyPdsAdapters : Adapters where
  pds := fun _ => .error (.externalServiceError "PDS request failed")
  sds := fun ods => some ⟨some ("asid_" ++ ods), some "https://example-provider.org/endpoint"⟩
  gp := fun _ _ _ _ _ => none

/-- Headers carrying both required entries. -/
def goodHeaders : List (String × String) := [("Ods-from", "A12345"), ("X-Request-ID", "t1")]

/-! ## Lemmas about the decimal-representation machinery -/

lemma natDigitsRevFuel_zero (f : Nat) : natDigitsRevFuel f 0 = [] := by
  cases f <;> rfl

lemma natDigitsRevFuel_congr (f : Nat) :
    ∀ f' n, n ≤ f → n ≤ f' → natDigitsRevFuel f n = natDigitsRevFuel f' n := by
  induction f with
  | zero =>
      intro f' n hf _
      have hn : n = 0 := Nat.le_zero.mp hf
      subst hn
      simp [natDigitsRevFuel_zero]
  | succ f ih =>
      intro f' n hf hf'
      cases n with
      | zero => simp [natDigitsRevFuel_zero]
      | succ m =>
          cases f' with
          | zero => omega
          | succ f'' =>
              have hdiv : (m + 1) / 10 ≤ m := by
                have := Nat.div_lt_self (Nat.succ_pos m) (by norm_num : 1 < 10)
                omega
              simp only [natDigitsRevFuel]
              rw [ih f'' ((m + 1) / 10) (by omega) (by omega)]

lemma natDigitsRev_succ (n : Nat) :
    natDigitsRev (n + 1) = (n + 1) % 10 :: natDigitsRev ((n + 1) / 10) := by
  have hdiv : (n + 1) / 10 ≤ n := by
    have := Nat.div_lt_self (Nat.succ_pos n) (by norm_num : 1 < 10)
    omega
  simp only [natDigitsRev, natDigitsRevFuel]
  rw [natDigitsRevFuel_congr n ((n + 1) / 10) ((n + 1) / 10) hdiv le_rfl]

lemma valRev_natDigitsRev (n : Nat) : valRev (natDigitsRev n) = n := by
  induction n using Nat.strong_induction_on with
  | _ n ih =>
      cases n with
      | zero => rfl
      | succ m =>
          rw [natDigitsRev_succ]
          have hlt : (m + 1) / 10 < m + 1 := Nat.div_lt_self (Nat.succ_pos m) (by norm_num)
          simp only [valRev, ih _ hlt]
          omega

lemma natDigitsRev_lt_ten (n : Nat) : ∀ d ∈ natDigitsRev n, d < 10 := by
  induction n using Nat.strong_induction_on with
  | _ n ih =>
      cases n with
      | zero => intro d hd; simp [natDigitsRev, natDigitsRevFuel] at hd
      | succ m =>
          rw [natDigitsRev_succ]
          intro d hd
          rcases List.mem_cons.mp hd with h | h
          · subst h; exact Nat.mod_lt _ (by norm_num)
          · exact ih _ (Nat.div_lt_self (Nat.succ_pos m) (by norm_num)) d h

lemma valRev_pos (l : List Nat) (hne : l ≠ []) (hlast : l.getLast? ≠ some 0) :
    0 < valRev l := by
  induction l with
  | nil => simp at hne
  | cons d rest ih =>
      cases rest with
      | nil =>
          have hd : d ≠ 0 := by simpa [List.getLast?] using hlast
          simp only [valRev]
          omega
      | cons r rs =>
          have h1 : (r :: rs).getLast? ≠ some 0 := by
            simpa [List.getLast?_cons_cons] using hlast
          have h2 := ih (by simp) h1
          have h3 : valRev (d :: r :: rs) = d + 10 * valRev (r :: rs) := rfl
          omega

lemma natDigitsRev_valRev (l : List Nat) (hd : ∀ d ∈ l, d < 10)
    (hlast : l.getLast? ≠ some 0) : natDigitsRev (valRev l) = l := by
  induction l with
  | nil => rfl
  | cons d rest ih =>
      cases rest with
      | nil =>
          have hd0 : d < 10 := hd d (by simp)
          have hdne : d ≠ 0 := by simpa [List.getLast?] using hlast
          obtain ⟨m, rfl⟩ := Nat.exists_eq_succ_of_ne_zero hdne
          have hv : valRev [m + 1] = m + 1 := by simp [valRev]
          rw [hv, natDigitsRev_succ, Nat.mod_eq_of_lt hd0, Nat.div_eq_of_lt hd0]
          rfl
      | cons r rs =>
          have hlast' : (r :: rs).getLast? ≠ some 0 := by
            simpa [List.getLast?_cons_cons] using hlast
          have hpos : 0 < valRev (r :: rs) := valRev_pos _ (by simp) hlast'
          have hdlt : d < 10 := hd d (by simp)
          have hn : valRev (d :: r :: rs) = d + 10 * valRev (r :: rs) := rfl
          obtain ⟨k, hk⟩ := Nat.exists_eq_succ_of_ne_zero
            (show valRev (d :: r :: rs) ≠ 0 by rw [hn]; omega)
          rw [Nat.succ_eq_add_one] at hk
          rw [hk, natDigitsRev_succ, ← hk, hn]
          have hmod : (d + 10 * valRev (r :: rs)) % 10 = d := by omega
          have hdiv : (d + 10 * valRev (r :: rs)) / 10 = valRev (r :: rs) := by omega
          rw [hmod, hdiv, ih (fun x hx => hd x (by simp [hx])) hlast']

lemma natDigitsRev_length_le (k : Nat) : ∀ n, n < 10 ^ k → (natDigitsRev n).length ≤ k := by
  induction k with
  | zero =>
      intro n h
      have : n = 0 := by simpa using h
      subst this
      simp [natDigitsRev, natDigitsRevFuel]
  | succ k ih =>
      intro n h
      cases n with
      | zero => simp [natDigitsRev, natDigitsRevFuel]
      | succ m =>
          rw [natDigitsRev_succ]
          simp only [List.length_cons]
          have hlt : (m + 1) / 10 < 10 ^ k := by
            rw [Nat.div_lt_iff_lt_mul (by norm_num : 0 < 10)]
            calc m + 1 < 10 ^ (k + 1) := h
            _ = 10 ^ k * 10 := by ring
          exact Nat.succ_le_succ (ih _ hlt)

lemma valRev_lt (l : List Nat) (hd : ∀ d ∈ l, d < 10) : valRev l < 10 ^ l.length := by
  induction l with
  | nil => simp [valRev]
  | cons d rest ih =>
      have h1 := ih (fun x hx => hd x (by simp [hx]))
      have h2 : d < 10 := hd d (by simp)
      simp only [valRev, List.length_cons, pow_succ]
      generalize 10 ^ rest.length = t at h1 ⊢
      omega

/-! ## Lemmas about digit characters -/

lemma char_isDigit_toNat {c : Char} (h : c.isDigit = true) :
    48 ≤ c.toNat ∧ c.toNat ≤ 57 := by
  simp only [Char.isDigit, Bool.and_eq_true, decide_eq_true_eq] at h
  exact ⟨h.1, h.2⟩

lemma digitChar_dval {c : Char} (h : c.isDigit = true) : digitChar (dval c) = c := by
  obtain ⟨h1, h2⟩ := char_isDigit_toNat h
  have he : 48 + (c.toNat - 48) = c.toNat := by omega
  simp only [digitChar, dval, he]
  exact Char.ofNat_toNat c

lemma dval_lt_ten {c : Char} (h : c.isDigit = true) : dval c < 10 := by
  obtain ⟨h1, h2⟩ := char_isDigit_toNat h
  simp only [dval]
  omega

lemma dval_ne_zero {c : Char} (h : c.isDigit = true) (h0 : c ≠ '0') : dval c ≠ 0 := by
  intro hz
  apply h0
  have := digitChar_dval h
  rw [hz] at this
  exact this.symm

/-! ## Lemmas about stripping and digit strings -/

lemma dropWhile_eq_self (p : Char → Bool) (l : List Char) (h : ∀ c ∈ l, p c = false) :
    l.dropWhile p = l := by
  cases l with
  | nil => rfl
  | cons a t => simp [List.dropWhile_cons, h a (by simp)]

lemma isPySpace_of_isDigit {c : Char} (h : c.isDigit = true) : isPySpace c = false := by
  cases hsp : isPySpace c
  · rfl
  · simp only [isPySpace, Bool.or_eq_true, decide_eq_true_eq] at hsp
    rcases hsp with ((((e | e) | e) | e) | e) | e <;> (subst e; exact absurd h (by decide))

lemma isSepChar_of_isDigit {c : Char} (h : c.isDigit = true) : isSepChar c = false := by
  simp only [isSepChar, isPySpace_of_isDigit h, Bool.false_or, decide_eq_false_iff_not]
  rintro rfl
  exact absurd h (by decide)

lemma pyStrip_of_digits (l : List Char) (h : ∀ c ∈ l, c.isDigit = true) :
    pyStrip l.asString = l.asString := by
  have h1 : ∀ c ∈ l, isPySpace c = false := fun c hc => isPySpace_of_isDigit (h c hc)
  simp only [pyStrip]
  rw [show (l.asString).toList = l from rfl]
  rw [dropWhile_eq_self _ _ h1]
  rw [dropWhile_eq_self _ _ (fun c hc => h1 c (List.mem_reverse.mp hc))]
  rw [List.reverse_reverse]

lemma removeSpaces_of_digits (l : List Char) (h : ∀ c ∈ l, c.isDigit = true) :
    removeSpaces l = l := by
  simp only [removeSpaces]
  apply List.filter_eq_self.mpr
  intro a ha
  exact decide_eq_true (by rintro rfl; exact absurd (h _ ha) (by decide))

lemma stripSeparators_of_digits (l : List Char) (h : ∀ c ∈ l, c.isDigit = true) :
    stripSeparators l.asString = l.asString := by
  simp only [stripSeparators]
  rw [show (l.asString).toList = l from rfl]
  congr 1
  apply List.filter_eq_self.mpr
  intro a ha
  simp [isSepChar_of_isDigit (h a ha)]

/-! ## Round trip between digit strings and integers -/

lemma pyStrToNat_lt (l : List Char) (h : ∀ c ∈ l, c.isDigit = true) :
    pyStrToNat l < 10 ^ l.length := by
  have hb : ∀ d ∈ l.reverse.map dval, d < 10 := by
    intro d hd
    obtain ⟨c, hc, rfl⟩ := List.mem_map.mp hd
    exact dval_lt_ten (h c (List.mem_reverse.mp hc))
  have := valRev_lt _ hb
  simpa [pyStrToNat] using this

lemma pyNatRepr_pyStrToNat (l : List Char) (hne : l ≠ [])
    (hdig : ∀ c ∈ l, c.isDigit = true) (hlead : l.head? ≠ some '0') :
    pyNatRepr (pyStrToNat l) = l.asString := by
  have hd10 : ∀ d ∈ l.reverse.map dval, d < 10 := by
    intro d hd
    obtain ⟨c, hc, rfl⟩ := List.mem_map.mp hd
    exact dval_lt_ten (hdig c (List.mem_reverse.mp hc))
  have hlast : (l.reverse.map dval).getLast? ≠ some 0 := by
    rw [List.getLast?_map, List.getLast?_reverse]
    cases hl : l.head? with
    | none => simp
    | some c =>
        have hcm : c ∈ l := by
          cases l with
          | nil => simp at hl
          | cons a t =>
              simp only [List.head?_cons, Option.some.injEq] at hl
              subst hl
              simp
        intro hcon
        have hvz : dval c = 0 := by simpa using hcon
        have hc0 : c = '0' := by
          have hdc := digitChar_dval (hdig c hcm)
          rw [hvz] at hdc
          exact hdc.symm
        exact hlead (by rw [hl, hc0])
  have hnz : pyStrToNat l ≠ 0 := by
    have hpos : 0 < valRev (l.reverse.map dval) :=
      valRev_pos _ (by simp [hne]) hlast
    simp only [pyStrToNat]
    omega
  unfold pyNatRepr
  rw [if_neg hnz]
  unfold pyStrToNat
  rw [natDigitsRev_valRev _ hd10 hlast, List.map_map]
  have hmap : List.map (digitChar ∘ dval) l.reverse = l.reverse := by
    conv_rhs => rw [← List.map_id l.reverse]
    apply List.map_congr_left
    intro a ha
    simp only [Function.comp_apply, id_eq]
    exact digitChar_dval (hdig a (List.mem_reverse.mp ha))
  rw [hmap, List.reverse_reverse]

lemma pyNatRepr_length_le (n k : Nat) (hk : 0 < k) (h : n < 10 ^ k) :
    (pyNatRepr n).length ≤ k := by
  by_cases hz : n = 0
  · subst hz
    simpa [pyNatRepr] using hk
  · simp only [pyNatRepr, if_neg hz]
    rw [show (List.asString (((natDigitsRev n).map digitChar).reverse)).length
          = ((natDigitsRev n).map digitChar).reverse.length from rfl]
    simpa using natDigitsRev_length_le k n h

lemma exists_ten_of_length {α : Type} {l : List α} (h : l.length = 10) :
    ∃ a0 a1 a2 a3 a4 a5 a6 a7 a8 a9,
      l = [a0, a1, a2, a3, a4, a5, a6, a7, a8, a9] := by
  match l, h with
  | [a0, a1, a2, a3, a4, a5, a6, a7, a8, a9], _ =>
      exact ⟨a0, a1, a2, a3, a4, a5, a6, a7, a8, a9, rfl⟩


lemma validateDigits_eq_spec (s : String) : validateDigits s.toList = nhsSpecValid s := by
  by_cases hlen : s.toList.length = 10
  · obtain ⟨c0, c1, c2, c3, c4, c5, c6, c7, c8, c9, hs⟩ := exists_ten_of_length hlen
    simp only [validateDigits, nhsSpecValid, pyStrIsDigit]
    rw [hs]
    norm_num
    have htot :
        (List.map (fun i =>
            ([dval c0, dval c1, dval c2, dval c3, dval c4, dval c5, dval c6, dval c7,
              dval c8, dval c9][i]?).getD 0 * (10 - i)) (List.range 9)).sum
          = (List.map (fun p => p.1 * p.2)
              ([dval c0, dval c1, dval c2, dval c3, dval c4, dval c5, dval c6,
                dval c7, dval c8].zip nhsWeights)).sum := by
      rfl
    rw [htot]
    simp [Bool.and_assoc]
  · simp only [validateDigits, nhsSpecValid]
    rw [if_pos hlen]
    rw [decide_eq_false hlen]
    simp

lemma stripSeparators_idem (s : String) :
    stripSeparators (stripSeparators s) = stripSeparators s := by
  simp only [stripSeparators]
  rw [show ((s.toList.filter fun c => !isSepChar c).asString).toList
        = s.toList.filter fun c => !isSepChar c from rfl]
  rw [List.filter_filter]
  simp only [Bool.and_self]

lemma validate_false_of_bad_char (s : String) (c : Char) (hc : c ∈ s.toList)
    (hd : c.isDigit = false) (hsep : isSepChar c = false) :
    validate_nhs_number (.s s) = false := by
  simp only [validate_nhs_number, pyStr]
  have hcl : c ∈ (stripSeparators s).toList := by
    simp only [stripSeparators]
    rw [show ((s.toList.filter fun c => !isSepChar c).asString).toList
          = s.toList.filter fun c => !isSepChar c from rfl]
    exact List.mem_filter.mpr ⟨hc, by simp [hsep]⟩
  set l := (stripSeparators s).toList with hl
  by_cases hlen : l.length = 10
  · have hall : l.all Char.isDigit = false := by
      simp only [List.all_eq_false]
      exact ⟨c, hcl, by simp [hd]⟩
    simp only [validateDigits, pyStrIsDigit]
    rw [if_neg (by simpa using hlen)]
    simp [hall]
  · simp [validateDigits, hlen]

/-- C1: `validate_nhs_number` returns true exactly when the
separator-stripped string is ten decimal digits whose modulus-11 check
digit (weights 10 down to 2 over the first nine digits, remainder mod 11,
check `11 - remainder` with 11 mapped to 0, 10 meaning invalid) equals the
tenth digit; together with the specification's five concrete examples. -/
theorem validate_nhs_number_meets_spec :
    (∀ v : PyStrInt,
        validate_nhs_number v = nhsSpecValid (stripSeparators (pyStr v))) ∧
    validate_nhs_number (.s "9434765919") = true ∧
    validate_nhs_number (.s "9434765918") = false ∧
    validate_nhs_number (.s "943476591") = false ∧
    validate_nhs_number (.s "0000000000") = true ∧
    validate_nhs_number (.s "0000000060") = false :=
  ⟨fun _ => validateDigits_eq_spec _, by decide, by decide, by decide, by decide, by decide⟩

/-- Witness for C1 at a concrete input. -/
theorem validate_nhs_number_meets_spec_witness :
    validate_nhs_number (.s "943-476-5919")
      = nhsSpecValid (stripSeparators (pyStr (.s "943-476-5919"))) :=
  validate_nhs_number_meets_spec.1 (.s "943-476-5919")

/-- C9: `validate_nhs_number` is total and separator-invariant: validating a
string equals validating its separator-stripped form; any string containing
a character that is neither a digit nor a space/hyphen separator is
rejected; the four spelled-out forms of 9434765919 agree; and every input
yields a boolean. -/
theorem validate_nhs_number_total_sep_invariant :
    (∀ s : String,
        validate_nhs_number (.s s) = validate_nhs_number (.s (stripSeparators s))) ∧
    (∀ (s : String) (c : Char), c ∈ s.toList → c.isDigit = false →
        isSepChar c = false → validate_nhs_number (.s s) = false) ∧
    (validate_nhs_number (.s "9434765919") = validate_nhs_number (.s "943 476 5919") ∧
     validate_nhs_number (.s "9434765919") = validate_nhs_number (.s "943-476-5919") ∧
     validate_nhs_number (.s "9434765919") = validate_nhs_number (.i 9434765919)) ∧
    (∀ v : PyStrInt,
        validate_nhs_number v = true ∨ validate_nhs_number v = false) := by
  refine ⟨fun s => ?_, validate_false_of_bad_char, ⟨by decide, by decide, by decide⟩,
    fun v => Bool.eq_false_or_eq_true _⟩
  simp only [validate_nhs_number, pyStr, stripSeparators_idem]

/-- Witness for C9 at a concrete input. -/
theorem validate_nhs_number_total_sep_invariant_witness :
    validate_nhs_number (.s "94347a5919") = false :=
  validate_nhs_number_total_sep_invariant.2.1 "94347a5919" 'a' (by decide)
    (by decide) (by decide)

/-! ## Temporal selector lemmas (C3, C7) -/

lemma findCurrentNameRecord_eq_find (records : List NameRecord) (today : PyDate)
    (h : ∀ r ∈ records, nameWf r = true) :
    findCurrentNameRecord records today
      = .ok (records.find? (fun r => nameCurrent r today)) := by
  induction records with
  | nil => rfl
  | cons r rest ih =>
      have hr : nameWf r = true := h r (by simp)
      cases hd : nameRecordDates r with
      | error e => simp [nameWf, hd] at hr
      | ok pr =>
          obtain ⟨s, e⟩ := pr
          have hcur : nameCurrent r today = (PyDate.le s today && PyDate.le today e) := by
            simp [nameCurrent, hd]
          cases hc : PyDate.le s today && PyDate.le today e with
          | true =>
              rw [List.find?_cons_of_pos _ (by rw [hcur]; exact hc)]
              simp [findCurrentNameRecord, hd, hc]
          | false =>
              rw [List.find?_cons_of_neg _ (by rw [hcur, hc]; simp)]
              rw [← ih (fun x hx => h x (by simp [hx]))]
              simp [findCurrentNameRecord, hd, hc]

lemma findCurrentGp_eq_find (records : List GpRecord) (today : PyDate)
    (h : ∀ r ∈ records, gpWf r = true) :
    findCurrentGp records today
      = .ok (records.find? (fun r => gpCurrent r today)) := by
  induction records with
  | nil => rfl
  | cons r rest ih =>
      have hr : gpWf r = true := h r (by simp)
      cases hd : gpRecordDates r with
      | error e => simp [gpWf, hd] at hr
      | ok pr =>
          obtain ⟨s, e⟩ := pr
          have hcur : gpCurrent r today = (PyDate.le s today && PyDate.le today e) := by
            simp [gpCurrent, hd]
          cases hc : PyDate.le s today && PyDate.le today e with
          | true =>
              rw [List.find?_cons_of_pos _ (by rw [hcur]; exact hc)]
              simp [findCurrentGp, hd, hc]
          | false =>
              rw [List.find?_cons_of_neg _ (by rw [hcur, hc]; simp)]
              rw [← ih (fun x hx => h x (by simp [hx]))]
              simp [findCurrentGp, hd, hc]

/-- C3: on well-formed records both temporal selectors return the first
record (in input order) whose inclusive `[start, end]` period contains the
reference date, and `none` when the list is empty or no period matches;
with the specification's concrete 2020/2021 examples. -/
theorem temporal_selector_first_match :
    (∀ (records : List NameRecord) (d : PyDate),
        (∀ r ∈ records, nameWf r = true) →
        findCurrentNameRecord records d
          = .ok (records.find? (fun r => nameCurrent r d))) ∧
    (∀ (records : List GpRecord) (d : PyDate),
        (∀ r ∈ records, gpWf r = true) →
        findCurrentGp records d
          = .ok (records.find? (fun r => gpCurrent r d))) ∧
    findCurrentNameRecord [nameRec2020, nameRec2021] ⟨2020, 6, 1⟩
      = .ok (some nameRec2020) ∧
    findCurrentNameRecord [nameRec2020, nameRec2021] ⟨2021, 6, 1⟩
      = .ok (some nameRec2021) ∧
    findCurrentNameRecord [nameRec2020, nameRec2021] ⟨2019, 6, 1⟩ = .ok none ∧
    findCurrentNameRecord [] ⟨2020, 6, 1⟩ = .ok none ∧
    findCurrentGp [gpRec2020] ⟨2020, 6, 1⟩ = .ok (some gpRec2020) :=
  ⟨findCurrentNameRecord_eq_find, findCurrentGp_eq_find, rfl, rfl, rfl, rfl, rfl⟩

/-- Witness for C3 at a concrete record list and date. -/
theorem temporal_selector_first_match_witness :
    findCurrentNameRecord [nameRec2020, nameRec2021] ⟨2020, 6, 1⟩
      = .ok (List.find? (fun r => nameCurrent r ⟨2020, 6, 1⟩) [nameRec2020, nameRec2021]) :=
  temporal_selector_first_match.1 [nameRec2020, nameRec2021] ⟨2020, 6, 1⟩ (by decide)

lemma findCurrentNameRecord_broken (pre rest : List NameRecord) (bad : NameRecord)
    (today : PyDate) (hwf : ∀ r ∈ pre, nameWf r = true)
    (hnc : ∀ r ∈ pre, nameCurrent r today = false) (hb : nameBroken bad = true) :
    ∃ k, findCurrentNameRecord (pre ++ bad :: rest) today = .error (.keyError k) := by
  induction pre with
  | nil =>
      rw [List.nil_append]
      cases hp : bad.period? with
      | none =>
          exact ⟨"period", by simp [findCurrentNameRecord, nameRecordDates, hp]⟩
      | some p =>
          cases hs : p.startStr with
          | none =>
              exact ⟨"start",
                by simp [findCurrentNameRecord, nameRecordDates, periodDates, hp, hs]⟩
          | some s0 =>
              have he : p.endStr = none := by
                simp only [nameBroken, hp, hs, Option.isNone_some, Bool.false_or,
                  Option.isNone_iff_eq_none] at hb
                exact hb
              exact ⟨"end",
                by simp [findCurrentNameRecord, nameRecordDates, periodDates, hp, hs, he]⟩
  | cons r pre' ih =>
      have hr := hwf r (by simp)
      cases hd : nameRecordDates r with
      | error e => simp [nameWf, hd] at hr
      | ok pr =>
          obtain ⟨s, e⟩ := pr
          have hc : (PyDate.le s today && PyDate.le today e) = false := by
            have := hnc r (by simp)
            simpa [nameCurrent, hd] using this
          obtain ⟨k, hk⟩ :=
            ih (fun x hx => hwf x (by simp [hx])) (fun x hx => hnc x (by simp [hx]))
          refine ⟨k, ?_⟩
          rw [List.cons_append]
          simp only [findCurrentNameRecord, hd, hc, Bool.false_eq_true, if_false]
          exact hk

lemma findCurrentGp_broken (pre rest : List GpRecord) (bad : GpRecord)
    (today : PyDate) (hwf : ∀ r ∈ pre, gpWf r = true)
    (hnc : ∀ r ∈ pre, gpCurrent r today = false) (hb : gpBroken bad = true) :
    ∃ k, findCurrentGp (pre ++ bad :: rest) today = .error (.keyError k) := by
  induction pre with
  | nil =>
      rw [List.nil_append]
      cases hi : bad.identifier? with
      | none =>
          exact ⟨"identifier", by simp [findCurrentGp, gpRecordDates, hi]⟩
      | some ident =>
          cases hp : ident.period? with
          | none =>
              exact ⟨"period", by simp [findCurrentGp, gpRecordDates, hi, hp]⟩
          | some p =>
              cases hs : p.startStr with
              | none =>
                  exact ⟨"start",
                    by simp [findCurrentGp, gpRecordDates, periodDates, hi, hp, hs]⟩
              | some s0 =>
                  have he : p.endStr = none := by
                    simp only [gpBroken, hi, hp, hs, Option.isNone_some, Bool.false_or,
                      Option.isNone_iff_eq_none] at hb
                    exact hb
                  exact ⟨"end",
                    by simp [findCurrentGp, gpRecordDates, periodDates, hi, hp, hs, he]⟩
  | cons r pre' ih =>
      have hr := hwf r (by simp)
      cases hd : gpRecordDates r with
      | error e => simp [gpWf, hd] at hr
      | ok pr =>
          obtain ⟨s, e⟩ := pr
          have hc : (PyDate.le s today && PyDate.le today e) = false := by
            have := hnc r (by simp)
            simpa [gpCurrent, hd] using this
          obtain ⟨k, hk⟩ :=
            ih (fun x hx => hwf x (by simp [hx])) (fun x hx => hnc x (by simp [hx]))
          refine ⟨k, ?_⟩
          rw [List.cons_append]
          simp only [findCurrentGp, hd, hc, Bool.false_eq_true, if_false]
          exact hk

/-! ## Controller pipeline lemmas -/

lemma callGpConnect_reach_pds (ad : Adapters) (body : ReqBody)
    (headers : List (String × String)) (n : Int) (trace_id : String)
    (hbody : getDetailsFromBody body = .ok n)
    (hods : pyStrip ((headersGet headers "Ods-from").getD "") ≠ "")
    (htrace : headersGet headers "X-Request-ID" = some trace_id) :
    callGpConnect ad body headers
      = match getPdsDetails ad.pds n with
        | .error (.req err) => .ok ⟨err.status_code, some err.message, none⟩
        | .error (.fault f) => .error f
        | .ok provider_ods =>
          match getSdsDetails ad.sds
              (pyStrip ((headersGet headers "Ods-from").getD "")) provider_ods with
          | .error err => .ok ⟨err.status_code, some err.message, none⟩
          | .ok (consumer_asid, provider_asid, provider_endpoint) =>
            match ad.gp provider_endpoint provider_asid consumer_asid trace_id
                (pyIntRepr n) with
            | none => .ok ⟨502, some "GP Connect service error", none⟩
            | some response =>
                .ok ⟨response.status_code, some response.text, some response.headers⟩ := by
  simp only [callGpConnect, hbody]
  rw [if_neg hods]
  simp only [htrace]

/-- C2: in the final FetchRecord stage, a null record-provider result maps
to a 502 service-error outcome with null headers, and any non-null
response is passed through with status, body and headers unchanged. -/
theorem fetch_record_passthrough (ad : Adapters) (body : ReqBody)
    (headers : List (String × String)) (n : Int)
    (trace_id provider_ods ca pa pe : String)
    (hbody : getDetailsFromBody body = .ok n)
    (hods : pyStrip ((headersGet headers "Ods-from").getD "") ≠ "")
    (htrace : headersGet headers "X-Request-ID" = some trace_id)
    (hpds : getPdsDetails ad.pds n = .ok provider_ods)
    (hsds : getSdsDetails ad.sds (pyStrip ((headersGet headers "Ods-from").getD ""))
        provider_ods = .ok (ca, pa, pe)) :
    (ad.gp pe pa ca trace_id (pyIntRepr n) = none →
        callGpConnect ad body headers
          = .ok ⟨502, some "GP Connect service error", none⟩) ∧
    (∀ resp : HttpResponse, ad.gp pe pa ca trace_id (pyIntRepr n) = some resp →
        callGpConnect ad body headers
          = .ok ⟨resp.status_code, some resp.text, some resp.headers⟩) := by
  constructor
  · intro hgp
    rw [callGpConnect_reach_pds ad body headers n trace_id hbody hods htrace]
    simp only [hpds, hsds, hgp]
  · intro resp hgp
    rw [callGpConnect_reach_pds ad body headers n trace_id hbody hods htrace]
    simp only [hpds, hsds, hgp]

/-- Witness for C2: with the all-succeeding adapters the 200 response is
passed straight through. -/
theorem fetch_record_passthrough_witness :
    callGpConnect happyAdapters (.object [("nhs-number", .vstr "9434765919")])
        goodHeaders
      = .ok ⟨200, some "record", some [("Content-Type", "application/fhir+json")]⟩ :=
  (fetch_record_passthrough happyAdapters
      (.object [("nhs-number", .vstr "9434765919")]) goodHeaders 9434765919
      "t1" "A20047" "asid_A12345" "asid_A20047"
      "https://example-provider.org/endpoint"
      rfl (by decide) (by decide) rfl rfl).2
    ⟨200, "record", [("Content-Type", "application/fhir+json")]⟩ rfl

/-- C4: a missing PDS patient yields a 404 outcome naming the NHS number,
and a patient with an absent or blank current GP ODS code yields a 404
"did not contain a current provider ODS code" outcome. -/
theorem resolve_identity_404 (ad : Adapters) (body : ReqBody)
    (headers : List (String × String)) (n : Int) (trace_id : String)
    (hbody : getDetailsFromBody body = .ok n)
    (hods : pyStrip ((headersGet headers "Ods-from").getD "") ≠ "")
    (htrace : headersGet headers "X-Request-ID" = some trace_id) :
    (ad.pds n = .ok none →
        callGpConnect ad body headers
          = .ok ⟨404, some ("No PDS patient found for NHS number " ++ pyIntRepr n),
              none⟩) ∧
    (∀ res : SearchResults, ad.pds n = .ok (some res) →
        (res.gp_ods_code = none ∨ res.gp_ods_code = some "") →
        callGpConnect ad body headers
          = .ok ⟨404, some ("PDS patient " ++ pyIntRepr n
              ++ " did not contain a current provider ODS code"), none⟩) := by
  constructor
  · intro hpds
    rw [callGpConnect_reach_pds ad body headers n trace_id hbody hods htrace]
    simp only [getPdsDetails, hpds]
  · intro res hpds hcode
    rw [callGpConnect_reach_pds ad body headers n trace_id hbody hods htrace]
    rcases hcode with hcode | hcode <;> simp [getPdsDetails, hpds, hcode]

/-- Witness for C4: no PDS patient found for 9434765919. -/
theorem resolve_identity_404_witness :
    callGpConnect
        { pds := fun _ => .ok none, sds := fun _ => none, gp := fun _ _ _ _ _ => none }
        (.object [("nhs-number", .vstr "9434765919")]) goodHeaders
      = .ok ⟨404, some ("No PDS patient found for NHS number " ++ pyIntRepr 9434765919),
          none⟩ :=
  (resolve_identity_404
      { pds := fun _ => .ok none, sds := fun _ => none, gp := fun _ _ _ _ _ => none }
      (.object [("nhs-number", .vstr "9434765919")]) goodHeaders 9434765919 "t1"
      rfl (by decide) (by decide)).1 rfl

lemma dropWhile_eq_nil (p : Char → Bool) (l : List Char) (h : ∀ c ∈ l, p c = true) :
    l.dropWhile p = [] := by
  induction l with
  | nil => rfl
  | cons a t ih =>
      simp [List.dropWhile_cons, h a (by simp), ih (fun c hc => h c (by simp [hc]))]

lemma pyStrip_of_all_space (s : String) (h : ∀ c ∈ s.toList, isPySpace c = true) :
    pyStrip s = "" := by
  simp only [pyStrip]
  rw [dropWhile_eq_nil _ _ h]
  rfl

/-- C5: resolving the owning organisation in the directory: a missing
entry yields a 404 whose body is exactly "No SDS org found for provider
ODS code " followed by the code; an absent-or-whitespace ASID (after
trimming) yields a 404 "did not contain a current ASID"; an
absent-or-whitespace endpoint yields a 404 "did not contain a current
endpoint"; and trimming sends whitespace-only values to the empty string,
so they are treated exactly as absent values. -/
theorem resolve_directory_404 (ad : Adapters) (body : ReqBody)
    (headers : List (String × String)) (n : Int) (trace_id provider_ods : String)
    (hbody : getDetailsFromBody body = .ok n)
    (hods : pyStrip ((headersGet headers "Ods-from").getD "") ≠ "")
    (htrace : headersGet headers "X-Request-ID" = some trace_id)
    (hpds : getPdsDetails ad.pds n = .ok provider_ods) :
    (ad.sds provider_ods = none →
        callGpConnect ad body headers
          = .ok ⟨404, some ("No SDS org found for provider ODS code "
              ++ provider_ods), none⟩) ∧
    (∀ d : SdsSearchResults, ad.sds provider_ods = some d →
        pyStrip (d.asid.getD "") = "" →
        callGpConnect ad body headers
          = .ok ⟨404, some ("SDS result for provider ODS code " ++ provider_ods
              ++ " did not contain a current ASID"), none⟩) ∧
    (∀ d : SdsSearchResults, ad.sds provider_ods = some d →
        pyStrip (d.asid.getD "") ≠ "" →
        pyStrip (d.endpoint.getD "") = "" →
        callGpConnect ad body headers
          = .ok ⟨404, some ("SDS result for provider ODS code " ++ provider_ods
              ++ " did not contain a current endpoint"), none⟩) ∧
    (∀ s : String, (∀ c ∈ s.toList, isPySpace c = true) → pyStrip s = "") := by
  refine ⟨?_, ?_, ?_, pyStrip_of_all_space⟩
  · intro hsds
    rw [callGpConnect_reach_pds ad body headers n trace_id hbody hods htrace]
    simp only [hpds, getSdsDetails, hsds]
  · intro d hsds ha
    rw [callGpConnect_reach_pds ad body headers n trace_id hbody hods htrace]
    simp only [hpds, getSdsDetails, hsds, ha]
    simp
  · intro d hsds ha he
    rw [callGpConnect_reach_pds ad body headers n trace_id hbody hods htrace]
    simp only [hpds, getSdsDetails, hsds, he]
    rw [if_neg ha]
    simp

/-- Witness for C5: missing directory entry for the owning organisation. -/
theorem resolve_directory_404_witness :
    callGpConnect
        { pds := fun _ => .ok (some ⟨"J", "D", "9434765919", some "A20047"⟩),
          sds := fun _ => none, gp := fun _ _ _ _ _ => none }
        (.object [("nhs-number", .vstr "9434765919")]) goodHeaders
      = .ok ⟨404, some ("No SDS org found for provider ODS code " ++ "A20047"), none⟩ :=
  (resolve_directory_404
      { pds := fun _ => .ok (some ⟨"J", "D", "9434765919", some "A20047"⟩),
        sds := fun _ => none, gp := fun _ _ _ _ _ => none }
      (.object [("nhs-number", .vstr "9434765919")]) goodHeaders 9434765919 "t1"
      "A20047" rfl (by decide) (by decide) rfl).1 rfl

lemma callGpConnect_pds_fault (ad : Adapters) (body : ReqBody)
    (headers : List (String × String)) (n : Int) (trace_id : String) (f : PyFault)
    (hbody : getDetailsFromBody body = .ok n)
    (hods : pyStrip ((headersGet headers "Ods-from").getD "") ≠ "")
    (htrace : headersGet headers "X-Request-ID" = some trace_id)
    (hpds : ad.pds n = .error f) :
    callGpConnect ad body headers = .error f := by
  rw [callGpConnect_reach_pds ad body headers n trace_id hbody hods htrace]
  simp only [getPdsDetails, hpds]

lemma getPdsDetails_no_fault (pds : Int → Except PyFault (Option SearchResults))
    (n : Int) (r : Option SearchResults) (hr : pds n = .ok r) (f : PyFault) :
    getPdsDetails pds n ≠ .error (.fault f) := by
  cases r with
  | none => simp [getPdsDetails, hr]
  | some res =>
      cases hc : res.gp_ods_code with
      | none => simp [getPdsDetails, hr, hc]
      | some code =>
          by_cases hz : code = "" <;> simp [getPdsDetails, hr, hc, hz]

/-- C6 counterexample: a valid request whose PDS HTTP call fails makes
`call_gp_connect` terminate with an uncaught `ExternalServiceError`
(pds_search.py line 203) instead of returning a `FlaskResponse`: only
`RequestError` is caught in controller.py lines 364-396. -/
theorem call_gp_connect_raises_counterexample :
    callGpConnect faultyPdsAdapters (.object [("nhs-number", .vstr "9434765919")])
        goodHeaders
      = .error (.externalServiceError "PDS request failed") := rfl

/-- C6 (amended): `call_gp_connect` returns a `FlaskResponse` on every run
in which the PDS adapter returns a value rather than raising; in
particular every `RequestError` is caught and converted, and the three
header/body guard failures are returned as 400 responses. -/
theorem call_gp_connect_total_when_adapters_return
    (ad : Adapters) (body : ReqBody) (headers : List (String × String))
    (hpds : ∀ m, ∃ r, ad.pds m = .ok r) :
    ∃ resp : FlaskResponse, callGpConnect ad body headers = .ok resp := by
  cases hbody : getDetailsFromBody body with
  | error err =>
      refine ⟨⟨err.status_code, some err.message, none⟩, ?_⟩
      simp [callGpConnect, hbody]
  | ok n =>
    by_cases hods : pyStrip ((headersGet headers "Ods-from").getD "") = ""
    · refine ⟨⟨400, some "Missing required header \"Ods-from\"", none⟩, ?_⟩
      simp [callGpConnect, hbody, hods]
    · cases htrace : headersGet headers "X-Request-ID" with
      | none =>
          refine ⟨⟨400, some "Missing required header: X-Request-ID", none⟩, ?_⟩
          simp only [callGpConnect, hbody]
          rw [if_neg hods]
          simp [htrace]
      | some trace_id =>
          rw [callGpConnect_reach_pds ad body headers n trace_id hbody hods htrace]
          obtain ⟨r, hr⟩ := hpds n
          cases hgp : getPdsDetails ad.pds n with
          | error e =>
              cases e with
              | req err => exact ⟨⟨err.status_code, some err.message, none⟩, by simp [hgp]⟩
              | fault f => exact absurd hgp (getPdsDetails_no_fault ad.pds n r hr f)
          | ok pods =>
              cases hsds : getSdsDetails ad.sds
                  (pyStrip ((headersGet headers "Ods-from").getD "")) pods with
              | error err =>
                  exact ⟨⟨err.status_code, some err.message, none⟩, by simp [hgp, hsds]⟩
              | ok triple =>
                  obtain ⟨ca, pa, pe⟩ := triple
                  cases hg : ad.gp pe pa ca trace_id (pyIntRepr n) with
                  | none =>
                      exact ⟨⟨502, some "GP Connect service error", none⟩,
                        by simp [hgp, hsds, hg]⟩
                  | some response =>
                      exact ⟨⟨response.status_code, some response.text,
                        some response.headers⟩, by simp [hgp, hsds, hg]⟩

/-- Witness for the amended C6 with all-succeeding adapters. -/
theorem call_gp_connect_total_when_adapters_return_witness :
    ∃ resp : FlaskResponse,
      callGpConnect happyAdapters (.object [("nhs-number", .vstr "9434765919")])
        goodHeaders = .ok resp :=
  call_gp_connect_total_when_adapters_return happyAdapters
    (.object [("nhs-number", .vstr "9434765919")]) goodHeaders
    (fun _ => ⟨some ⟨"JOHN", "DOE", "9434765919", some "A20047"⟩, rfl⟩)

lemma findCurrentNameRecord_error_of_broken (records : List NameRecord) (d : PyDate) :
    ∀ i (hi : i < records.length), nameBroken (records.get ⟨i, hi⟩) = true →
    (∀ j (hj : j < i), nameCurrent (records.get ⟨j, by omega⟩) d = false) →
    ∃ e, findCurrentNameRecord records d = .error e := by
  induction records with
  | nil => intro i hi; simp at hi
  | cons r rest ih =>
      intro i hi hb hprev
      cases i with
      | zero =>
          obtain ⟨k, hk⟩ :=
            findCurrentNameRecord_broken [] rest r d (by simp) (by simp)
              (by simpa using hb)
          exact ⟨.keyError k, by simpa using hk⟩
      | succ j =>
          have hr : nameCurrent r d = false := by simpa using hprev 0 (by omega)
          cases hd : nameRecordDates r with
          | error e => exact ⟨e, by simp [findCurrentNameRecord, hd]⟩
          | ok pr =>
              obtain ⟨s0, e0⟩ := pr
              have hc : (PyDate.le s0 d && PyDate.le d e0) = false := by
                simpa [nameCurrent, hd] using hr
              obtain ⟨e, he⟩ := ih j (by simpa using hi) (by simpa using hb)
                (fun j' hj' => by simpa using hprev (j' + 1) (by omega))
              refine ⟨e, ?_⟩
              simp only [findCurrentNameRecord, hd, hc, Bool.false_eq_true, if_false]
              exact he

lemma findCurrentGp_error_of_broken (records : List GpRecord) (d : PyDate) :
    ∀ i (hi : i < records.length), gpBroken (records.get ⟨i, hi⟩) = true →
    (∀ j (hj : j < i), gpCurrent (records.get ⟨j, by omega⟩) d = false) →
    ∃ e, findCurrentGp records d = .error e := by
  induction records with
  | nil => intro i hi; simp at hi
  | cons r rest ih =>
      intro i hi hb hprev
      cases i with
      | zero =>
          obtain ⟨k, hk⟩ :=
            findCurrentGp_broken [] rest r d (by simp) (by simp) (by simpa using hb)
          exact ⟨.keyError k, by simpa using hk⟩
      | succ j =>
          have hr : gpCurrent r d = false := by simpa using hprev 0 (by omega)
          cases hd : gpRecordDates r with
          | error e => exact ⟨e, by simp [findCurrentGp, hd]⟩
          | ok pr =>
              obtain ⟨s0, e0⟩ := pr
              have hc : (PyDate.le s0 d && PyDate.le d e0) = false := by
                simpa [gpCurrent, hd] using hr
              obtain ⟨e, he⟩ := ih j (by simpa using hi) (by simpa using hb)
                (fun j' hj' => by simpa using hprev (j' + 1) (by omega))
              refine ⟨e, ?_⟩
              simp only [findCurrentGp, hd, hc, Bool.false_eq_true, if_false]
              exact he

/-- C7: a record missing its period (or its start/end entries) at or
before the position of the first current record makes the temporal
selectors raise an error rather than skip it or return none — a `KeyError`
when the records before it are well-formed; this outcome is distinct from
the not-found result; and the controller does not map such a fault to a
404 outcome but lets it propagate to its caller. -/
theorem selector_fails_loudly :
    (∀ (records : List NameRecord) (d : PyDate) (i : Nat) (hi : i < records.length),
        nameBroken (records.get ⟨i, hi⟩) = true →
        (∀ j (hj : j < i), nameCurrent (records.get ⟨j, by omega⟩) d = false) →
        ∃ e, findCurrentNameRecord records d = .error e) ∧
    (∀ (records : List GpRecord) (d : PyDate) (i : Nat) (hi : i < records.length),
        gpBroken (records.get ⟨i, hi⟩) = true →
        (∀ j (hj : j < i), gpCurrent (records.get ⟨j, by omega⟩) d = false) →
        ∃ e, findCurrentGp records d = .error e) ∧
    (∀ (pre rest : List NameRecord) (bad : NameRecord) (today : PyDate),
        (∀ r ∈ pre, nameWf r = true) → (∀ r ∈ pre, nameCurrent r today = false) →
        nameBroken bad = true →
        ∃ k, findCurrentNameRecord (pre ++ bad :: rest) today
          = .error (.keyError k)) ∧
    (∀ (pre rest : List GpRecord) (bad : GpRecord) (today : PyDate),
        (∀ r ∈ pre, gpWf r = true) → (∀ r ∈ pre, gpCurrent r today = false) →
        gpBroken bad = true →
        ∃ k, findCurrentGp (pre ++ bad :: rest) today = .error (.keyError k)) ∧
    (∀ k : String,
        (Except.error (PyFault.keyError k) : Except PyFault (Option NameRecord))
          ≠ .ok none) ∧
    (∀ (ad : Adapters) (body : ReqBody) (headers : List (String × String))
        (n : Int) (trace_id k : String),
        getDetailsFromBody body = .ok n →
        pyStrip ((headersGet headers "Ods-from").getD "") ≠ "" →
        headersGet headers "X-Request-ID" = some trace_id →
        ad.pds n = .error (.keyError k) →
        callGpConnect ad body headers = .error (.keyError k)) :=
  ⟨fun records d i hi => findCurrentNameRecord_error_of_broken records d i hi,
    fun records d i hi => findCurrentGp_error_of_broken records d i hi,
    findCurrentNameRecord_broken, findCurrentGp_broken,
    fun _ => by simp,
    fun ad body headers n trace_id k hbody hods htrace hpds =>
      callGpConnect_pds_fault ad body headers n trace_id _ hbody hods htrace hpds⟩

/-- Witness for C7: a name record with no period entry at all. -/
theorem selector_fails_loudly_witness :
    ∃ k, findCurrentNameRecord
        ([] ++ ({ period? := none } : NameRecord) :: []) ⟨2020, 6, 1⟩
      = .error (.keyError k) :=
  selector_fails_loudly.2.2.1 [] [] { period? := none } ⟨2020, 6, 1⟩
    (by simp) (by simp) (by decide)

/-! ## Coercion lemmas (C8, C10) -/

lemma valRev_append_zero (l : List Nat) : valRev (l ++ [0]) = valRev l := by
  induction l with
  | nil => simp [valRev]
  | cons d t ih => simp [valRev, ih]

lemma pyStrToNat_leading_zero (t : List Char) (hdig : ∀ c ∈ t, c.isDigit = true) :
    pyStrToNat ('0' :: t) < 10 ^ t.length := by
  have h0 : pyStrToNat ('0' :: t) = valRev (t.reverse.map dval) := by
    simp only [pyStrToNat, List.reverse_cons, List.map_append]
    rw [show List.map dval ['0'] = [0] from rfl]
    exact valRev_append_zero _
  rw [h0]
  have hb : ∀ d ∈ t.reverse.map dval, d < 10 := by
    intro d hd
    obtain ⟨c, hc, rfl⟩ := List.mem_map.mp hd
    exact dval_lt_ten (hdig c (List.mem_reverse.mp hc))
  have := valRev_lt _ hb
  simpa using this

lemma coerceCheck_error_of_small (n : Nat) (h : n < 10 ^ 9) :
    coerceCheck (Int.ofNat n) = .error "NHS number must be 10 digits" := by
  have hnn : ¬(Int.ofNat n < 0) := not_lt.mpr (Int.ofNat_nonneg n)
  have hlen : (pyIntRepr (Int.ofNat n)).length ≤ 9 := by
    simp only [pyIntRepr, if_neg hnn, Int.natAbs_ofNat]
    exact pyNatRepr_length_le n 9 (by norm_num) h
  simp only [coerceCheck]
  rw [if_pos (by omega)]

lemma coerce_vstr_digits (s : String) (hne : s.toList ≠ [])
    (hdig : ∀ c ∈ s.toList, c.isDigit = true) :
    coerceNhsNumberToInt (.vstr s)
      = coerceCheck (Int.ofNat (pyStrToNat s.toList)) := by
  simp only [coerceNhsNumberToInt]
  have h1 : pyStrip s = s := by
    have := pyStrip_of_digits s.toList hdig
    rwa [show s.toList.asString = s from rfl] at this
  rw [h1, removeSpaces_of_digits _ hdig]
  have h3 : pyStrIsDigit s.toList = true := by
    simp only [pyStrIsDigit, Bool.and_eq_true, Bool.not_eq_true', List.isEmpty_iff,
      List.all_eq_true]
    exact ⟨by simpa using hne, fun c hc => by simp [hdig c hc]⟩
  rw [if_pos h3]

lemma coerce_error_of_leading_zero (s : String) (hlen : s.toList.length = 10)
    (hdig : ∀ c ∈ s.toList, c.isDigit = true) (hlead : s.toList.head? = some '0') :
    coerceNhsNumberToInt (.vstr s) = .error "NHS number must be 10 digits" := by
  rw [coerce_vstr_digits s (by intro h; rw [h] at hlen; simp at hlen) hdig]
  cases hs : s.toList with
  | nil => rw [hs] at hlen; simp at hlen
  | cons a t =>
      rw [hs] at hlead
      simp only [List.head?_cons, Option.some.injEq] at hlead
      subst hlead
      have ht : t.length = 9 := by rw [hs] at hlen; simpa using hlen
      have hdt : ∀ c ∈ t, c.isDigit = true := fun c hc => hdig c (by rw [hs]; simp [hc])
      have hv : pyStrToNat ('0' :: t) < 10 ^ 9 := by
        have := pyStrToNat_leading_zero t hdt
        rwa [ht] at this
      exact coerceCheck_error_of_small _ hv

lemma coerce_error_cases (s : String) (hlen : s.toList.length = 10)
    (hdig : ∀ c ∈ s.toList, c.isDigit = true)
    (hval : validate_nhs_number (.s s) = false) :
    ∃ e, coerceNhsNumberToInt (.vstr s) = .error e := by
  by_cases hlead : s.toList.head? = some '0'
  · exact ⟨_, coerce_error_of_leading_zero s hlen hdig hlead⟩
  · have hne : s.toList ≠ [] := by intro h; rw [h] at hlen; simp at hlen
    rw [coerce_vstr_digits s hne hdig]
    have hrt : pyNatRepr (pyStrToNat s.toList) = s := by
      have := pyNatRepr_pyStrToNat s.toList hne hdig hlead
      rwa [show s.toList.asString = s from rfl] at this
    have hnn : ¬(Int.ofNat (pyStrToNat s.toList) < 0) :=
      not_lt.mpr (Int.ofNat_nonneg _)
    have hrepr : pyIntRepr (Int.ofNat (pyStrToNat s.toList)) = s := by
      simp only [pyIntRepr, if_neg hnn, Int.natAbs_ofNat]
      exact hrt
    have hslen : s.length = 10 := hlen
    have hv2 : validate_nhs_number (.i (Int.ofNat (pyStrToNat s.toList))) = false := by
      simp only [validate_nhs_number, pyStr, hrepr]
      simpa [validate_nhs_number, pyStr] using hval
    refine ⟨"NHS number is invalid", ?_⟩
    simp only [coerceCheck, hrepr]
    rw [if_neg (by simp [hslen]), if_pos hv2]

lemma callGpConnect_coerce_error (ad : Adapters) (headers : List (String × String))
    (s e : String) (hm : coerceNhsNumberToInt (.vstr s) = .error e) :
    callGpConnect ad (.object [("nhs-number", .vstr s)]) headers
      = .ok ⟨400, some ("Could not coerce NHS number \"" ++ s ++ "\" to an integer"),
          none⟩ := by
  have h1 : getDetailsFromBody (.object [("nhs-number", .vstr s)])
      = match coerceNhsNumberToInt (.vstr s) with
        | .error _ =>
            .error ⟨400, "Could not coerce NHS number \"" ++ s ++ "\" to an integer"⟩
        | .ok n => .ok n := rfl
  have h2 : getDetailsFromBody (.object [("nhs-number", .vstr s)])
      = .error ⟨400, "Could not coerce NHS number \"" ++ s ++ "\" to an integer"⟩ := by
    rw [h1, hm]
  simp [callGpConnect, h2]

/-- C8 counterexample: even with every downstream adapter ready to
succeed, a request whose 10-digit patient number fails the modulus-11
check terminates during input handling with a 400 coercion error —
`_coerce_nhs_number_to_int` validates the checksum (controller.py line
447), so the pipeline does not proceed to the identity registry. -/
theorem resolve_identity_skips_validation_counterexample :
    callGpConnect happyAdapters (.object [("nhs-number", .vstr "9434765918")])
        goodHeaders
      = .ok ⟨400, some "Could not coerce NHS number \"9434765918\" to an integer",
          none⟩ := rfl

/-- C8 (amended): the coercion step validates the modulus-11 checksum, so
for every adapter behaviour a request whose patient number is 10 digits
but fails the check yields a 400 outcome from input handling; the identity
registry is never consulted (the outcome is independent of the adapters). -/
theorem coercion_validates_checksum (ad : Adapters)
    (headers : List (String × String)) (s : String)
    (hlen : s.toList.length = 10) (hdig : ∀ c ∈ s.toList, c.isDigit = true)
    (hval : validate_nhs_number (.s s) = false) :
    callGpConnect ad (.object [("nhs-number", .vstr s)]) headers
      = .ok ⟨400, some ("Could not coerce NHS number \"" ++ s ++ "\" to an integer"),
          none⟩ := by
  obtain ⟨e, he⟩ := coerce_error_cases s hlen hdig hval
  exact callGpConnect_coerce_error ad headers s e he

/-- Witness for the amended C8 at a concrete checksum-failing number. -/
theorem coercion_validates_checksum_witness :
    callGpConnect faultyPdsAdapters (.object [("nhs-number", .vstr "1234567890")])
        goodHeaders
      = .ok ⟨400, some ("Could not coerce NHS number \"" ++ "1234567890"
          ++ "\" to an integer"), none⟩ :=
  coercion_validates_checksum faultyPdsAdapters goodHeaders "1234567890"
    (by decide) (by decide) (by decide)

/-- C10: a 10-digit string with a leading zero always fails
`_coerce_nhs_number_to_int` with `ValueError` (integer conversion drops
the leading zeros, so `len(str(n)) < 10`); in particular "0000000000"
passes `validate_nhs_number` yet coercion fails and `call_gp_connect`
returns a 400 outcome for it under every adapter behaviour. -/
theorem leading_zero_coercion_gap :
    (∀ s : String, s.toList.length = 10 → (∀ c ∈ s.toList, c.isDigit = true) →
        s.toList.head? = some '0' →
        coerceNhsNumberToInt (.vstr s) = .error "NHS number must be 10 digits") ∧
    validate_nhs_number (.s "0000000000") = true ∧
    coerceNhsNumberToInt (.vstr "0000000000")
      = .error "NHS number must be 10 digits" ∧
    (∀ (ad : Adapters) (headers : List (String × String)),
        callGpConnect ad (.object [("nhs-number", .vstr "0000000000")]) headers
          = .ok ⟨400, some "Could not coerce NHS number \"0000000000\" to an integer",
              none⟩) :=
  ⟨coerce_error_of_leading_zero, by decide, rfl,
    fun ad headers => callGpConnect_coerce_error ad headers "0000000000"
      "NHS number must be 10 digits" rfl⟩

/-- Witness for C10 at a concrete leading-zero valid NHS number. -/
theorem leading_zero_coercion_gap_witness :
    coerceNhsNumberToInt (.vstr "0123456789")
      = .error "NHS number must be 10 digits" :=
  leading_zero_coercion_gap.1 "0123456789" (by decide) (by decide) (by decide)

end GatewayApi
